import Mathlib

/-!
Verification of the browser-side form controller in
`src/static/js/app.js` of the Al Adhwa lesson-plan generator.

The file is a shallow embedding of the three event handlers of that
script — the date-change handler, the form submit handler, and the
"Generate Another" reset handler — as pure Lean functions.  DOM reads
and writes become fields of an explicit `UIState`; each `fetch` call's
result is an explicit outcome parameter (response, JSON-parse failure,
or network failure); the observable side effects of a handler run
(`alert` calls, `console.error` calls, HTTP request bodies sent, and
the progress timer's start/clear) are recorded in the handler's result
record.  Scrolling (`scrollIntoView`, `window.scrollTo`) and the text
shown by the progress timer's ticks are presentation-only and are not
modelled; the timer itself is modelled by whether it was started and
whether it was cleared.
-/

namespace AlAdhwa

/-- Values read from the form at one instant: `FormData.get(name)` for
each named control the script reads (a missing control reads as `none`,
an unchecked checkbox such as `gifted_talented` also reads as `none`),
and `FormData.getAll('standards')` for the standards checkboxes. -/
structure FormSnapshot where
  date : Option String
  semester : Option String
  grade : Option String
  subject : Option String
  topic : Option String
  period : Option String
  value : Option String
  standards : List String
  digital_platform : Option String
  gifted_talented : Option String
  ppt_style : Option String
deriving Repr, DecidableEq

/-- JavaScript truthiness of a possibly-absent string: `null`/`undefined`
and the empty string are falsy, every other string is truthy. -/
def truthy : Option String → Bool
  | none => false
  | some s => s ≠ ""

/-- JavaScript `x || d` for a possibly-absent string `x` and a string
default `d`: yields `x` when `x` is truthy and `d` otherwise. -/
def jsOrDefault (x : Option String) (d : String) : String :=
  match x with
  | none => d
  | some s => if s = "" then d else s

/-- The body posted to `/api/generate-lesson-plan`: the flat record
`data` built by the submit handler from the form snapshot. -/
structure Payload where
  date : Option String
  semester : Option String
  grade : Option String
  subject : Option String
  topic : Option String
  period : Option String
  value : Option String
  standards : List String
  digital_platform : Option String
  gifted_talented : Bool
  ppt_style : Option String
deriving Repr, DecidableEq

/-- Construction of the submit payload, mirroring the `const data = {...}`
object literal: every field is the corresponding `FormData` entry,
except `gifted_talented`, which is the strict comparison
`formData.get('gifted_talented') === 'on'`. -/
def buildPayload (fd : FormSnapshot) : Payload :=
  { date := fd.date
    semester := fd.semester
    grade := fd.grade
    subject := fd.subject
    topic := fd.topic
    period := fd.period
    value := fd.value
    standards := fd.standards
    digital_platform := fd.digital_platform
    gifted_talented := fd.gifted_talented == some "on"
    ppt_style := fd.ppt_style }

/-- The required-field check of the submit handler:
`!data.date || !data.semester || !data.grade || !data.subject ||
!data.topic || !data.period`, stated positively.  Exactly the six
fields date, semester, grade, subject, topic, period are checked. -/
def requiredPresent (d : Payload) : Bool :=
  truthy d.date && truthy d.semester && truthy d.grade &&
  truthy d.subject && truthy d.topic && truthy d.period

/-- The DOM state the script reads and writes: the `hidden` CSS class on
the form, the loading panel and the result panel; the current values of
the form's controls (the derived value input with id `value` is the
form entry named `value`); and the download button's `href`, holding
the last URL assigned to it (`none` before any assignment). -/
structure UIState where
  formHidden : Bool
  loadingHidden : Bool
  resultHidden : Bool
  formFields : FormSnapshot
  downloadHref : Option String
deriving Repr, DecidableEq

/-- A parsed response body of `POST /api/generate-lesson-plan`: the
fields the script reads from `result`, each possibly absent. -/
structure GenBody where
  status : Option String
  download_url : Option String
  message : Option String
deriving Repr, DecidableEq

/-- Outcome of the submit handler's `fetch('/api/generate-lesson-plan')`
round trip: the response with its `ok` flag and parsed JSON body, a
rejection of `response.json()` with the thrown error's message, or a
rejection of `fetch` itself with the thrown error's message. -/
inductive GenOutcome where
  | response (ok : Bool) (body : GenBody)
  | jsonError (msg : String)
  | networkError (msg : String)
deriving Repr, DecidableEq

/-- Everything observable about one run of the submit handler: the DOM
state it leaves, the `alert` messages it showed, the `console.error`
lines it printed, the bodies it posted to `/api/generate-lesson-plan`,
and whether the progress interval was started and whether it was
cleared. -/
structure SubmitResult where
  state : UIState
  alerts : List String
  consoleErrors : List String
  requests : List Payload
  intervalStarted : Bool
  intervalCleared : Bool
deriving Repr, DecidableEq

/-- The catch branch of the submit handler, reached when the awaited
request throws (network failure, JSON-parse failure, or the explicit
`throw new Error(result.message || 'Failed to generate lesson plan')`):
clears the interval, alerts, hides the loading panel, shows the form
again, and logs to the console.  `s1` is the state after the loading
panels were shown, `data` the payload that was posted, `msg` the caught
error's `.message`. -/
def submitFailure (s1 : UIState) (data : Payload) (msg : String) : SubmitResult :=
  { state := { s1 with loadingHidden := true, formHidden := false }
    alerts := ["Error generating lesson plan: " ++ msg ++
               "\n\nPlease try again or contact support."]
    consoleErrors := ["Generation error: " ++ msg]
    requests := [data]
    intervalStarted := true
    intervalCleared := true }

/-- The form submit handler.  Reads `FormData(form)` (the state's form
fields), builds the payload, validates the six required fields (alert
and return on failure, before any panel change and before any request),
otherwise hides the form, shows the loading panel, hides the result
panel, starts the progress interval, posts the payload once, and
branches on the outcome: on an ok response whose body has
status === 'success' it hides loading, shows the result panel and sets
the download button's href from `result.download_url`; every other
outcome reaches the catch branch.  `clearInterval` runs right after
`fetch` resolves and again in the catch branch, so it is called on
every path on which the interval was started. -/
def handleSubmit (s : UIState) (outcome : GenOutcome) : SubmitResult :=
  let data := buildPayload s.formFields
  if !(requiredPresent data) then
    { state := s
      alerts := ["Please fill in all required fields marked with *"]
      consoleErrors := []
      requests := []
      intervalStarted := false
      intervalCleared := false }
  else
    let s1 : UIState :=
      { s with formHidden := true, loadingHidden := false, resultHidden := true }
    match outcome with
    | .networkError msg => submitFailure s1 data msg
    | .jsonError msg => submitFailure s1 data msg
    | .response ok body =>
        if ok && body.status == some "success" then
          { state := { s1 with
                       loadingHidden := true
                       resultHidden := false
                       downloadHref := body.download_url }
            alerts := []
            consoleErrors := []
            requests := [data]
            intervalStarted := true
            intervalCleared := true }
        else
          submitFailure s1 data
            (jsOrDefault body.message "Failed to generate lesson plan")

/-- A parsed response body of `POST /api/get-month-value`: the two
fields the script reads, each possibly absent. -/
structure MonthBody where
  value : Option String
  error : Option String
deriving Repr, DecidableEq

/-- Outcome of the date-change handler's `fetch('/api/get-month-value')`
round trip: a parsed response body, or a rejection (of `fetch` or of
`response.json()`) carrying the thrown error's message. -/
inductive MonthOutcome where
  | response (body : MonthBody)
  | failure (msg : String)
deriving Repr, DecidableEq

/-- Everything observable about one run of the date-change handler: the
DOM state it leaves, the `alert` messages it showed (the handler never
calls `alert`, so this records that fact), the `console.error` lines,
and the `date` values of the bodies it posted to
`/api/get-month-value`. -/
structure DateChangeResult where
  state : UIState
  alerts : List String
  consoleErrors : List String
  requests : List String
deriving Repr, DecidableEq

/-- The date-change handler.  `selectedDate` is `this.value` of the date
input at event time (an input's value property, always a string).  An
empty date returns immediately.  Otherwise it posts
JSON.stringify of the object with single field date mapped to
`selectedDate`, and on a parsed body: a truthy `value` field is stored
in the derived value input; otherwise a truthy `error` field is logged
with `console.error('Error fetching month value:', data.error)`
(modelled as the joined string); otherwise nothing happens.  A thrown
error is logged with `console.error('Error:', error)`. -/
def handleDateChange (s : UIState) (selectedDate : String)
    (outcome : MonthOutcome) : DateChangeResult :=
  if selectedDate = "" then
    { state := s, alerts := [], consoleErrors := [], requests := [] }
  else
    match outcome with
    | .failure msg =>
        { state := s
          alerts := []
          consoleErrors := ["Error: " ++ msg]
          requests := [selectedDate] }
    | .response body =>
        if truthy body.value then
          { state := { s with formFields :=
              { s.formFields with value := body.value } }
            alerts := []
            consoleErrors := []
            requests := [selectedDate] }
        else if truthy body.error then
          { state := s
            alerts := []
            consoleErrors := ["Error fetching month value: " ++ body.error.getD ""]
            requests := [selectedDate] }
        else
          { state := s, alerts := [], consoleErrors := [], requests := [selectedDate] }

/-- The "Generate Another" click handler: hides the result panel, shows
the form, calls `form.reset()` (restoring every control to its
HTML-declared default, here the parameter `defaults`), then sets the
derived value input to the empty string.  It touches nothing else; in
particular the download button's href is left alone. -/
def handleNewPlan (defaults : FormSnapshot) (s : UIState) : UIState :=
  { s with resultHidden := true
           formHidden := false
           formFields := { defaults with value := some "" } }

/-- A concrete filled-in form snapshot, used by the witnesses. -/
def sampleFields : FormSnapshot :=
  { date := some "2024-01-15"
    semester := some "1"
    grade := some "7"
    subject := some "Science"
    topic := some "Photosynthesis"
    period := some "3"
    value := some "Tolerance"
    standards := ["S1", "S2"]
    digital_platform := some "Nearpod"
    gifted_talented := some "on"
    ppt_style := some "modern" }

/-- A concrete UI state in the idle (form visible) configuration, used
by the witnesses and counterexamples. -/
def sampleState : UIState :=
  { formHidden := false
    loadingHidden := true
    resultHidden := true
    formFields := sampleFields
    downloadHref := none }

/-- A form snapshot whose required date entry is empty, used by the
witnesses that exercise the validation-failure path. -/
def missingDateFields : FormSnapshot :=
  { sampleFields with date := some "" }

/-- A concrete idle UI state whose date entry is empty. -/
def missingDateState : UIState :=
  { sampleState with formFields := missingDateFields }

/-- Helper: once validation passes, every outcome's path posts the
payload exactly once. -/
theorem submit_requests_of_valid (s : UIState) (outcome : GenOutcome)
    (h : requiredPresent (buildPayload s.formFields) = true) :
    (handleSubmit s outcome).requests = [buildPayload s.formFields] := by
  rcases outcome with ⟨ok, body⟩ | msg | msg
  · by_cases hc : (ok && body.status == some "success") = true
    · simp [handleSubmit, h, hc]
    · simp [handleSubmit, h, hc, submitFailure]
  · simp [handleSubmit, h, submitFailure]
  · simp [handleSubmit, h, submitFailure]

/-- C1: for every submission whose request resolves with an HTTP-ok
response whose body has status 'success', the submit handler hides the
loading panel, reveals the result panel, and sets the download button's
href to the response's download_url field. -/
theorem C1_success_reveals_result (s : UIState) (body : GenBody)
    (hreq : requiredPresent (buildPayload s.formFields) = true)
    (hst : body.status = some "success") :
    (handleSubmit s (.response true body)).state.loadingHidden = true ∧
    (handleSubmit s (.response true body)).state.resultHidden = false ∧
    (handleSubmit s (.response true body)).state.downloadHref =
      body.download_url := by
  refine ⟨?_, ?_, ?_⟩ <;> simp [handleSubmit, hreq, hst]

/-- Witness for C1 at a concrete filled-in form and a concrete success
response. -/
theorem C1_success_reveals_result_witness :
    (handleSubmit sampleState (.response true
       { status := some "success"
         download_url := some "/download/plan.zip"
         message := none })).state.downloadHref = some "/download/plan.zip" :=
  (C1_success_reveals_result sampleState
    { status := some "success"
      download_url := some "/download/plan.zip"
      message := none } (by decide) rfl).2.2

/-- C2: for every submission whose request fails — network error,
JSON-parse error, non-ok HTTP response, or a body whose status is not
'success' — the submit handler hides the loading panel, makes the form
visible again, and surfaces the error message (from the response body,
or a default, or the thrown error's message) in a blocking alert. -/
theorem C2_failure_restores_form (s : UIState)
    (hreq : requiredPresent (buildPayload s.formFields) = true) :
    (∀ msg : String,
      (handleSubmit s (.networkError msg)).state.loadingHidden = true ∧
      (handleSubmit s (.networkError msg)).state.formHidden = false ∧
      (handleSubmit s (.networkError msg)).alerts =
        ["Error generating lesson plan: " ++ msg ++
         "\n\nPlease try again or contact support."]) ∧
    (∀ msg : String,
      (handleSubmit s (.jsonError msg)).state.loadingHidden = true ∧
      (handleSubmit s (.jsonError msg)).state.formHidden = false ∧
      (handleSubmit s (.jsonError msg)).alerts =
        ["Error generating lesson plan: " ++ msg ++
         "\n\nPlease try again or contact support."]) ∧
    (∀ (ok : Bool) (body : GenBody),
      ¬(ok = true ∧ body.status = some "success") →
      (handleSubmit s (.response ok body)).state.loadingHidden = true ∧
      (handleSubmit s (.response ok body)).state.formHidden = false ∧
      (handleSubmit s (.response ok body)).alerts =
        ["Error generating lesson plan: " ++
         jsOrDefault body.message "Failed to generate lesson plan" ++
         "\n\nPlease try again or contact support."]) := by
  refine ⟨fun msg => ?_, fun msg => ?_, fun ok body h => ?_⟩
  · refine ⟨?_, ?_, ?_⟩ <;> simp [handleSubmit, hreq, submitFailure]
  · refine ⟨?_, ?_, ?_⟩ <;> simp [handleSubmit, hreq, submitFailure]
  · have hcond : (ok && body.status == some "success") = false := by
      cases ok <;> simp_all [beq_iff_eq]
    refine ⟨?_, ?_, ?_⟩ <;> simp [handleSubmit, hreq, hcond, submitFailure]

/-- Witness for C2 at a concrete filled-in form: a network error and a
non-ok response with an error body both alert and restore the form. -/
theorem C2_failure_restores_form_witness :
    ((handleSubmit sampleState (.networkError "Failed to fetch")).alerts =
       ["Error generating lesson plan: Failed to fetch\n\nPlease try again or contact support."] ∧
     (handleSubmit sampleState (.networkError "Failed to fetch")).state.formHidden = false) ∧
    (handleSubmit sampleState (.response false
       { status := some "error", download_url := none,
         message := some "LLM quota exceeded" })).alerts =
      ["Error generating lesson plan: LLM quota exceeded\n\nPlease try again or contact support."] := by
  have h := C2_failure_restores_form sampleState (by decide)
  refine ⟨⟨(h.1 "Failed to fetch").2.2, (h.1 "Failed to fetch").2.1⟩, ?_⟩
  have h2 := (h.2.2 false
    { status := some "error", download_url := none,
      message := some "LLM quota exceeded" } (by simp)).2.2
  simpa [jsOrDefault] using h2

/-- C3: on every submit the handler validates exactly the six fields
date, semester, grade, subject, topic, period; if any is missing it
alerts and aborts with no request sent and the whole UI state
unchanged, and if all six are present it posts the payload exactly
once. -/
theorem C3_validation_gates_request (s : UIState) (outcome : GenOutcome) :
    (requiredPresent (buildPayload s.formFields) =
      (truthy s.formFields.date && truthy s.formFields.semester &&
       truthy s.formFields.grade && truthy s.formFields.subject &&
       truthy s.formFields.topic && truthy s.formFields.period)) ∧
    (requiredPresent (buildPayload s.formFields) = false →
      handleSubmit s outcome =
        { state := s
          alerts := ["Please fill in all required fields marked with *"]
          consoleErrors := []
          requests := []
          intervalStarted := false
          intervalCleared := false }) ∧
    (requiredPresent (buildPayload s.formFields) = true →
      (handleSubmit s outcome).requests = [buildPayload s.formFields]) := by
  refine ⟨rfl, fun h => ?_, fun h => ?_⟩
  · simp [handleSubmit, h]
  · exact submit_requests_of_valid s outcome h

/-- Witness for C3: a form with an empty date aborts with no request and
an unchanged state; the fully filled form posts exactly once. -/
theorem C3_validation_gates_request_witness :
    ((handleSubmit missingDateState (.networkError "boom")).requests = [] ∧
     (handleSubmit missingDateState (.networkError "boom")).state = missingDateState) ∧
    (handleSubmit sampleState (.networkError "boom")).requests =
      [buildPayload sampleState.formFields] := by
  have h1 := (C3_validation_gates_request missingDateState (.networkError "boom")).2.1
    (by decide)
  have h2 := (C3_validation_gates_request sampleState (.networkError "boom")).2.2
    (by decide)
  exact ⟨⟨by rw [h1], by rw [h1]⟩, h2⟩

/-- C4 counterexample: a network failure of the date-change request
produces no alert at all — it is only logged to the console — so it is
false that every network failure in the program surfaces as a blocking
user alert. -/
theorem C4_no_alert_on_date_change_failure :
    (handleDateChange sampleState "2024-01-15" (.failure "Failed to fetch")).alerts = [] ∧
    (handleDateChange sampleState "2024-01-15" (.failure "Failed to fetch")).consoleErrors =
      ["Error: Failed to fetch"] := by
  exact ⟨rfl, rfl⟩

/-- C4 amended: a network failure of the /api/generate-lesson-plan
submission request surfaces as a blocking alert and restores the form,
while a network failure of the /api/get-month-value date-change request
produces no alert and is only logged to the console. -/
theorem C4_alert_only_on_submit_failure (s : UIState) (msg : String)
    (hreq : requiredPresent (buildPayload s.formFields) = true) :
    ((handleSubmit s (.networkError msg)).alerts =
       ["Error generating lesson plan: " ++ msg ++
        "\n\nPlease try again or contact support."] ∧
     (handleSubmit s (.networkError msg)).state.formHidden = false) ∧
    (∀ (t : UIState) (d : String), d ≠ "" →
      (handleDateChange t d (.failure msg)).alerts = [] ∧
      (handleDateChange t d (.failure msg)).consoleErrors = ["Error: " ++ msg]) := by
  refine ⟨⟨?_, ?_⟩, fun t d hd => ?_⟩
  · simp [handleSubmit, hreq, submitFailure]
  · simp [handleSubmit, hreq, submitFailure]
  · exact ⟨by simp [handleDateChange, hd], by simp [handleDateChange, hd]⟩

/-- Witness for the amended C4 at a concrete state and message. -/
theorem C4_alert_only_on_submit_failure_witness :
    (handleSubmit sampleState (.networkError "Failed to fetch")).alerts =
      ["Error generating lesson plan: Failed to fetch\n\nPlease try again or contact support."] ∧
    (handleDateChange sampleState "2024-01-15" (.failure "Failed to fetch")).alerts = [] := by
  have h := C4_alert_only_on_submit_failure sampleState "Failed to fetch" (by decide)
  exact ⟨h.1.1, (h.2 sampleState "2024-01-15" (by decide)).1⟩

/-- C5: on every run of the submit handler, if the progress interval was
started then it was also cleared — on the success path, the error-body
path, and the thrown-error paths alike the interval is never left
active. -/
theorem C5_interval_always_cleared (s : UIState) (outcome : GenOutcome)
    (h : (handleSubmit s outcome).intervalStarted = true) :
    (handleSubmit s outcome).intervalCleared = true := by
  by_cases hr : requiredPresent (buildPayload s.formFields) = true
  · rcases outcome with ⟨ok, body⟩ | msg | msg
    · by_cases hc : (ok && body.status == some "success") = true
      · simp [handleSubmit, hr, hc]
      · simp [handleSubmit, hr, hc, submitFailure]
    · simp [handleSubmit, hr, submitFailure]
    · simp [handleSubmit, hr, submitFailure]
  · rw [Bool.not_eq_true] at hr
    simp [handleSubmit, hr] at h

/-- Witness for C5: on a concrete submission that throws, the interval
was started and was cleared. -/
theorem C5_interval_always_cleared_witness :
    (handleSubmit sampleState (.networkError "boom")).intervalStarted = true ∧
    (handleSubmit sampleState (.networkError "boom")).intervalCleared = true :=
  ⟨by decide, C5_interval_always_cleared sampleState (.networkError "boom") (by decide)⟩

/-- C6: whenever a request is sent, its body is exactly the flat record
with the eleven fields date, semester, grade, subject, topic, period,
value, standards, digital_platform, gifted_talented and ppt_style,
where standards is FormData.getAll('standards') and gifted_talented is
true exactly when the gifted_talented entry equals 'on'. -/
theorem C6_payload_shape (s : UIState) (outcome : GenOutcome)
    (hreq : requiredPresent (buildPayload s.formFields) = true) :
    (handleSubmit s outcome).requests = [buildPayload s.formFields] ∧
    buildPayload s.formFields =
      { date := s.formFields.date
        semester := s.formFields.semester
        grade := s.formFields.grade
        subject := s.formFields.subject
        topic := s.formFields.topic
        period := s.formFields.period
        value := s.formFields.value
        standards := s.formFields.standards
        digital_platform := s.formFields.digital_platform
        gifted_talented := s.formFields.gifted_talented == some "on"
        ppt_style := s.formFields.ppt_style } ∧
    ((buildPayload s.formFields).gifted_talented = true ↔
      s.formFields.gifted_talented = some "on") := by
  refine ⟨submit_requests_of_valid s outcome hreq, rfl, ?_⟩
  simp [buildPayload]

/-- Witness for C6 at the concrete filled-in form, whose gifted_talented
entry is 'on'. -/
theorem C6_payload_shape_witness :
    (handleSubmit sampleState (.networkError "boom")).requests =
      [buildPayload sampleState.formFields] ∧
    (buildPayload sampleState.formFields).gifted_talented = true ∧
    (buildPayload sampleState.formFields).standards = ["S1", "S2"] := by
  have h := C6_payload_shape sampleState (.networkError "boom") (by decide)
  exact ⟨h.1, by decide, by decide⟩

/-- C7 counterexample: a body that contains an error field holding the
empty string (and no value field) is handled with no console log at
all, so it is false that whenever the body contains an error field the
handler logs it; only a truthy error field is logged. -/
theorem C7_empty_error_not_logged :
    (handleDateChange sampleState "2024-01-15"
       (.response { value := none, error := some "" })).consoleErrors = [] ∧
    (handleDateChange sampleState "2024-01-15"
       (.response { value := none, error := some "" })).state = sampleState := by
  exact ⟨rfl, rfl⟩

/-- C7 amended: for every non-empty selected date the handler posts
exactly one body with field date equal to selectedDate to
/api/get-month-value; a truthy value field in the response body is
stored in the derived value input; otherwise a truthy error field is
only logged to the console with the value input and the rest of the
state unchanged (a present-but-empty error field is ignored). -/
theorem C7_date_change_behaviour (s : UIState) (d : String) (body : MonthBody)
    (hd : d ≠ "") :
    (handleDateChange s d (.response body)).requests = [d] ∧
    (truthy body.value = true →
      (handleDateChange s d (.response body)).state.formFields.value = body.value ∧
      (handleDateChange s d (.response body)).consoleErrors = []) ∧
    (truthy body.value = false → truthy body.error = true →
      (handleDateChange s d (.response body)).state = s ∧
      (handleDateChange s d (.response body)).consoleErrors =
        ["Error fetching month value: " ++ body.error.getD ""] ∧
      (handleDateChange s d (.response body)).alerts = []) := by
  refine ⟨?_, fun hv => ?_, fun hv he => ?_⟩
  · by_cases hv : truthy body.value = true
    · simp [handleDateChange, hd, hv]
    · by_cases he : truthy body.error = true <;>
        simp [handleDateChange, hd, hv, he]
  · exact ⟨by simp [handleDateChange, hd, hv], by simp [handleDateChange, hd, hv]⟩
  · refine ⟨?_, ?_, ?_⟩ <;> simp [handleDateChange, hd, hv, he]

/-- Witness for the amended C7: a concrete date and a concrete value
response store the value; a concrete error response only logs. -/
theorem C7_date_change_behaviour_witness :
    ((handleDateChange sampleState "2024-01-15"
        (.response { value := some "5", error := none })).requests = ["2024-01-15"] ∧
     (handleDateChange sampleState "2024-01-15"
        (.response { value := some "5", error := none })).state.formFields.value =
       some "5") ∧
    (handleDateChange sampleState "2024-01-15"
       (.response { value := none, error := some "bad date" })).consoleErrors =
      ["Error fetching month value: bad date"] := by
  have h1 := C7_date_change_behaviour sampleState "2024-01-15"
    { value := some "5", error := none } (by decide)
  have h2 := C7_date_change_behaviour sampleState "2024-01-15"
    { value := none, error := some "bad date" } (by decide)
  exact ⟨⟨h1.1, (h1.2.1 (by decide)).1⟩, by simpa using (h2.2.2 (by decide) (by decide)).2.1⟩

/-- C8: clicking 'Generate Another' (in any state, in particular after a
success) hides the result panel, shows the form, resets the form to its
control defaults, and clears the derived value field to the empty
string. -/
theorem C8_reset_restores_form (defaults : FormSnapshot) (s : UIState) :
    (handleNewPlan defaults s).resultHidden = true ∧
    (handleNewPlan defaults s).formHidden = false ∧
    (handleNewPlan defaults s).formFields = { defaults with value := some "" } ∧
    (handleNewPlan defaults s).formFields.value = some "" :=
  ⟨rfl, rfl, rfl, rfl⟩

/-- C9: when the date input's value is the empty string at change time,
the handler returns immediately: no request is posted, nothing is
logged or alerted, and the whole UI state — the derived value input
included — is unchanged. -/
theorem C9_empty_date_is_noop (s : UIState) (outcome : MonthOutcome) :
    handleDateChange s "" outcome =
      { state := s, alerts := [], consoleErrors := [], requests := [] } := by
  simp [handleDateChange]

/-- C10: the 'Generate Another' handler leaves the download button's
href unchanged, so after a successful submission followed by a reset
the download link still points at the previously assigned
download_url. -/
theorem C10_reset_keeps_href (defaults : FormSnapshot) (s : UIState) (body : GenBody)
    (hreq : requiredPresent (buildPayload s.formFields) = true)
    (hst : body.status = some "success") :
    (∀ t : UIState, (handleNewPlan defaults t).downloadHref = t.downloadHref) ∧
    (handleNewPlan defaults
        (handleSubmit s (.response true body)).state).downloadHref =
      body.download_url := by
  refine ⟨fun t => rfl, ?_⟩
  simp [handleNewPlan, handleSubmit, hreq, hst]

/-- Witness for C10: after a concrete success the assigned URL survives
the reset. -/
theorem C10_reset_keeps_href_witness :
    (handleNewPlan sampleFields
        (handleSubmit sampleState (.response true
          { status := some "success"
            download_url := some "/download/plan.zip"
            message := none })).state).downloadHref = some "/download/plan.zip" :=
  (C10_reset_keeps_href sampleFields sampleState
    { status := some "success"
      download_url := some "/download/plan.zip"
      message := none } (by decide) rfl).2

end AlAdhwa
